import Mathlib

/-!
Shallow embedding of the `neli` serialization core (`src/lib.rs`) and the
32-bit flag/mask utility (`src/utils.rs`).

Conventions of the embedding:
* Byte buffers (`BytesMut` / `Bytes` / `&[u8]`) are `List Nat` whose elements
  are intended to be bytes (< 256); machine integers are `Nat` with explicit
  reductions modulo `2 ^ w` where overflow matters.
* Rust `Result<T, E>` is `Except E T`; a Rust panic (an `unimplemented!()`,
  `expect`, or a failed `assert_eq!`) is modelled as `Option.none` around the
  result, so a function that can panic returns `Option (Except E T)`.
* A `&str` value is represented by its UTF-8 byte sequence (`List Nat`),
  mirroring the fact that in the source a `&str` is a view of those bytes.
-/

/-- Serialization errors of the `err` module, as used in `src/lib.rs`:
`UnexpectedEOB`, `BufferNotFilled` and `IOError` all carry the buffer
back to the caller. -/
inductive SerError where
  | UnexpectedEOB (mem : List Nat)
  | BufferNotFilled (mem : List Nat)
  | IOError (mem : List Nat)
  deriving Repr, DecidableEq

/-- Deserialization errors of the `err` module, as used in `src/lib.rs`:
`UnexpectedEOB`, `BufferNotParsed`, `NullError`, and the message-carrying
variant produced by `DeError::new`. -/
inductive DeError where
  | UnexpectedEOB
  | BufferNotParsed
  | NullError
  | Msg (s : String)
  deriving Repr, DecidableEq

/-- Semantics of `std::io::Write::write` for `&mut [u8]`: writes
`min data.length buf.length` bytes at the front of the buffer and returns
the count written together with the updated buffer.  This call never fails. -/
def writeFront (buf data : List Nat) : Nat × List Nat :=
  let n := min data.length buf.length
  (n, data.take n ++ buf.drop n)

/-- Semantics of `std::io::Write::write_all` for `&mut [u8]`: succeeds with
the updated buffer when all of `data` fits, otherwise overwrites the whole
buffer with a prefix of `data` and fails (the `WriteZero` error). -/
def writeAllFront (buf data : List Nat) : Except (List Nat) (List Nat) :=
  if data.length ≤ buf.length then
    Except.ok (data ++ buf.drop data.length)
  else
    Except.error (data.take buf.length)

/-- Embedding of `<u8 as Nl>::serialize` (`src/lib.rs`): length must equal
`size() = 1`; the shorter case errors with `UnexpectedEOB`, the longer case
with `BufferNotFilled`, both carrying the buffer; otherwise the single byte
is written at the front (the `write` result is discarded by the source). -/
def u8_serialize (v : Nat) (mem : List Nat) : Except SerError (List Nat) :=
  if mem.length < 1 then Except.error (SerError.UnexpectedEOB mem)
  else if mem.length > 1 then Except.error (SerError.BufferNotFilled mem)
  else Except.ok (writeFront mem [v % 256]).2

/-- Embedding of `<u8 as Nl>::deserialize` (`src/lib.rs`): length must equal
1, the result is the first byte.  The `expect` calls on `type_size()` and
`mem.get(0)` are panics, hence the `Option` wrapper (`none` = panic). -/
def u8_deserialize (mem : List Nat) : Option (Except DeError Nat) :=
  if mem.length < 1 then some (Except.error DeError.UnexpectedEOB)
  else if mem.length > 1 then some (Except.error DeError.BufferNotParsed)
  else (mem.get? 0).map fun b => Except.ok b

/-- Little-endian byte decomposition of a value into `w` bytes, the
behaviour of `byteorder::NativeEndian::write_uXX` on a little-endian host. -/
def leBytes : Nat → Nat → List Nat
  | 0, _ => []
  | n + 1, v => v % 256 :: leBytes n (v / 256)

/-- Little-endian read of a byte list, the behaviour of
`byteorder::NativeEndian::read_uXX` on a little-endian host. -/
def leRead : List Nat → Nat
  | [] => 0
  | b :: rest => b % 256 + 256 * leRead rest

/-- Modelled from the spec: the body of the `put_int!` macro used by the
`u16`/`u32`/`u64` impls of `Nl::serialize` lives in `src/macros.rs`, which is
not part of this source excerpt.  Per the spec (§4.4), the buffer length must
equal the type's width exactly — shorter fails with the end-of-buffer error,
longer with the not-fully-used error, both carrying the buffer — and the
value is written in host-native byte order. -/
def put_int (w v : Nat) (mem : List Nat) : Except SerError (List Nat) :=
  if mem.length < w then Except.error (SerError.UnexpectedEOB mem)
  else if mem.length > w then Except.error (SerError.BufferNotFilled mem)
  else Except.ok (leBytes w v)

/-- Modelled from the spec: the body of the `get_int!` macro used by the
`u16`/`u32`/`u64` impls of `Nl::deserialize` lives in `src/macros.rs`, which
is not part of this source excerpt.  Per the spec (§4.4), the buffer length
must equal the type's width exactly, and the value is read in host-native
byte order. -/
def get_int (w : Nat) (mem : List Nat) : Except DeError Nat :=
  if mem.length < w then Except.error DeError.UnexpectedEOB
  else if mem.length > w then Except.error DeError.BufferNotParsed
  else Except.ok (leRead mem)

/-- Embedding of `num_to_set_mask` (`src/utils.rs`): `1 << (grp - 1)` on
`u32`.  For `grp = 0` the subtraction underflows and for `grp - 1 ≥ 32` the
shift overflows; both are panics in the source semantics, modelled as
`none`.  In the remaining range the result is below `2 ^ 32`, so no modular
reduction is needed. -/
def num_to_set_mask (grp : Nat) : Option Nat :=
  if grp = 0 then none
  else if 32 ≤ grp - 1 then none
  else some (1 <<< (grp - 1))

/-- Embedding of `U32BitFlag::new` (`src/utils.rs`): rejects `bit_num > 32`
with a `BitRepError`, represented here by `Except.error` carrying the unit
(the error only holds a message string).  The flag's payload is the raw bit
number. -/
def U32BitFlag_new (bit_num : Nat) : Except Unit Nat :=
  if bit_num > 32 then Except.error ()
  else Except.ok bit_num

/-- Embedding of `U32BitFlag::into_bitmask` (`src/utils.rs`): converts the
stored bit number through `num_to_set_mask`; partial at bit number 0. -/
def into_bitmask (flag : Nat) : Option Nat :=
  num_to_set_mask flag

/-- Embedding of `U32Bitmask::empty` (`src/utils.rs`). -/
def U32Bitmask_empty : Nat := 0

/-- Embedding of `U32Bitmask::is_empty` (`src/utils.rs`). -/
def U32Bitmask_is_empty (mask : Nat) : Bool := mask == 0

/-- Embedding of `U32Bitmask::is_set` (`src/utils.rs`): bits above 32 report
`false` outright; otherwise the set mask is computed by `num_to_set_mask`
(partial at bit 0, hence the `Option`) and compared by `&`. -/
def U32Bitmask_is_set (mask bit : Nat) : Option Bool :=
  if bit > 32 then some false
  else (num_to_set_mask bit).map fun set_mask => set_mask &&& mask == set_mask

/-- Embedding of `BitOr<U32Bitmask> for U32Bitmask` (`src/utils.rs`): plain
bitwise or of the two 32-bit masks (no overflow is possible). -/
def bitmask_bitor (a b : Nat) : Nat := a ||| b

/-- Embedding of `AddAssign<U32BitFlag> for U32Bitmask` (`src/utils.rs`):
`self.0 |= *U32Bitmask::from(rhs)`; partial because the flag-to-mask
conversion is. -/
def bitmask_add_flag (mask flag : Nat) : Option Nat :=
  (into_bitmask flag).map fun set_mask => mask ||| set_mask

/-- Bitwise complement on `u32`: `!x` in the source, which for `x < 2 ^ 32`
is `x ^^^ (2 ^ 32 - 1)`. -/
def u32_not (x : Nat) : Nat := x ^^^ (2 ^ 32 - 1)

/-- Embedding of `SubAssign<U32BitFlag> for U32Bitmask` (`src/utils.rs`):
`self.0 &= !*U32Bitmask::from(rhs)`; partial because the flag-to-mask
conversion is. -/
def bitmask_sub_flag (mask flag : Nat) : Option Nat :=
  (into_bitmask flag).map fun set_mask => mask &&& u32_not set_mask

/-- Embedding of `<&[u8] as Nl>::serialize` (`src/lib.rs`): the greater-than
check comes first in this impl, then the less-than check; in the remaining
branch the lengths are equal and `copy_from_slice` (which panics only on a
length mismatch) replaces the whole buffer with the slice. -/
def slice_serialize (s mem : List Nat) : Except SerError (List Nat) :=
  if mem.length > s.length then Except.error (SerError.BufferNotFilled mem)
  else if mem.length < s.length then Except.error (SerError.UnexpectedEOB mem)
  else Except.ok s

/-- Embedding of `<&[u8] as Nl>::deserialize` (`src/lib.rs`): the body is
`unimplemented!()`, an unconditional panic, so the model is `none` on every
input (`none` = panic, never a typed error). -/
def slice_deserialize (_mem : List Nat) : Option (Except DeError (List Nat)) :=
  none

/-- Embedding of `<&[u8] as NlSlice>::deserialize_from_slice` (`src/lib.rs`):
returns the input bytes unchanged. -/
def slice_deserialize_from_slice (mem : List Nat) : Except DeError (List Nat) :=
  Except.ok mem

/-- Whether a byte is a UTF-8 continuation byte (`0x80..=0xBF`). -/
def isCont (b : Nat) : Bool := 0x80 ≤ b && b ≤ 0xBF

/-- Embedding of `str::from_utf8`'s validity check (Unicode Table 3-7, the
exact byte-sequence classification used by Rust's `core::str` validation):
ASCII is one byte; `0xC2..=0xDF` lead two-byte sequences; `0xE0`, `0xE1..=0xEC`,
`0xED`, `0xEE..=0xEF` lead three-byte sequences with their respective
restricted second bytes (excluding overlongs and surrogates); `0xF0`,
`0xF1..=0xF3`, `0xF4` lead four-byte sequences (excluding overlongs and
code points above `0x10FFFF`). -/
def isValidUtf8 : List Nat → Bool
  | [] => true
  | b :: l =>
    if b ≤ 0x7F then isValidUtf8 l
    else match l with
    | [] => false
    | c1 :: l1 =>
      if 0xC2 ≤ b && b ≤ 0xDF then isCont c1 && isValidUtf8 l1
      else match l1 with
      | [] => false
      | c2 :: l2 =>
        if b == 0xE0 then (0xA0 ≤ c1 && c1 ≤ 0xBF) && isCont c2 && isValidUtf8 l2
        else if (0xE1 ≤ b && b ≤ 0xEC) || b == 0xEE || b == 0xEF then
          isCont c1 && isCont c2 && isValidUtf8 l2
        else if b == 0xED then (0x80 ≤ c1 && c1 ≤ 0x9F) && isCont c2 && isValidUtf8 l2
        else match l2 with
        | [] => false
        | c3 :: l3 =>
          if b == 0xF0 then (0x90 ≤ c1 && c1 ≤ 0xBF) && isCont c2 && isCont c3 && isValidUtf8 l3
          else if 0xF1 ≤ b && b ≤ 0xF3 then isCont c1 && isCont c2 && isCont c3 && isValidUtf8 l3
          else if b == 0xF4 then (0x80 ≤ c1 && c1 ≤ 0x8F) && isCont c2 && isCont c3 && isValidUtf8 l3
          else false

/-- Embedding of `<&str as Nl>::serialize` (`src/lib.rs`) on the string's
UTF-8 bytes `s`, whose `size()` is `s.length + 1`: the greater-than check
comes first, then the less-than check; then `write(self.as_bytes())` (always
`Ok` on `&mut [u8]`, so the source's `IOError` arm is dead), the
`assert_eq!(write_size + 1, self.size())` (a panic when it fails, hence the
`Option`), and finally the terminator byte is stored at `mem[write_size]`. -/
def str_serialize (s mem : List Nat) : Option (Except SerError (List Nat)) :=
  if mem.length > s.length + 1 then some (Except.error (SerError.BufferNotFilled mem))
  else if mem.length < s.length + 1 then some (Except.error (SerError.UnexpectedEOB mem))
  else
    let w := writeFront mem s
    if w.1 + 1 = s.length + 1 then some (Except.ok (w.2.set w.1 0)) else none

/-- Embedding of `<&str as Nl>::deserialize` (`src/lib.rs`): unconditionally
returns the typed error `DeError::new("Use deserialize_from_slice")`. -/
def str_deserialize (_mem : List Nat) : Except DeError (List Nat) :=
  Except.error (DeError.Msg "Use deserialize_from_slice")

/-- Embedding of `<&str as NlSlice>::deserialize_from_slice` (`src/lib.rs`):
requires the last byte to be `0` (else `DeError::NullError`; an empty buffer
has no last byte and also fails with `NullError`), then runs `str::from_utf8`
on everything before the final byte, mapping a UTF-8 failure to the
message-carrying error.  The successful result is the `&str` view of those
bytes, represented here by the bytes themselves. -/
def str_deserialize_from_slice (mem : List Nat) : Except DeError (List Nat) :=
  match mem.getLast? with
  | some 0 =>
    let pre := mem.take (mem.length - 1)
    if isValidUtf8 pre then Except.ok pre
    else Except.error (DeError.Msg "invalid utf-8")
  | _ => Except.error DeError.NullError

/-- Modelled from the spec: `consts::alignto` lives in `src/consts.rs`, which
is not part of this source excerpt.  Per the spec (§4.1), `align(n)` is the
smallest multiple of the 4-byte protocol word size that is `≥ n`. -/
def alignto (n : Nat) : Nat := (n + 3) / 4 * 4

/-- Embedding of the default `Nl::pad` (`src/lib.rs`) for a value of
unaligned size `size` and default-derived aligned size `alignto size`:
`write_all(&[0; 4][..padding_len])` writes the zeros at the front of the
buffer through `Write for &mut [u8]` (the `[..padding_len]` slice of the
4-byte zero array is total here because `alignto size - size ≤ 3`, which
`List.take` mirrors); a write failure becomes `SerError::IOError` carrying
the buffer. -/
def pad (size : Nat) (mem : List Nat) : Except SerError (List Nat) :=
  let padding_len := alignto size - size
  match writeAllFront mem ((List.replicate 4 0).take padding_len) with
  | Except.ok m => Except.ok m
  | Except.error m => Except.error (SerError.IOError m)

/-- `leBytes` always produces exactly `w` bytes. -/
theorem leBytes_length (w : Nat) : ∀ v, (leBytes w v).length = w := by
  induction w with
  | zero => intro v; rfl
  | succ k ih => intro v; simp [leBytes, ih]

/-- Reading back a little-endian decomposition recovers the value modulo
`256 ^ w`. -/
theorem leRead_leBytes (w : Nat) : ∀ v, leRead (leBytes w v) = v % 256 ^ w := by
  induction w with
  | zero => intro v; simp [leBytes, leRead, Nat.mod_one]
  | succ k ih =>
    intro v
    simp only [leBytes, leRead, ih]
    rw [Nat.pow_succ, Nat.mul_comm (256 ^ k) 256, Nat.mod_mul,
      Nat.mod_mod_of_dvd v (dvd_refl 256)]

/-- Round trip through the modelled integer codec at any width. -/
theorem put_get_int (w v : Nat) (mem : List Nat) (hv : v < 256 ^ w)
    (hm : mem.length = w) :
    ∃ out, put_int w v mem = Except.ok out ∧ get_int w out = Except.ok v := by
  refine ⟨leBytes w v, ?_, ?_⟩
  · simp [put_int, hm]
  · simp [get_int, leBytes_length, leRead_leBytes, Nat.mod_eq_of_lt hv]

/-- Claim C1: for each fixed-width integer type implementing the
serialization contract (u8, u16, u32, u64) and every representable value
`v` (including 0 and the type's maximum), deserializing the result of
serializing `v` into a buffer of exactly `size()` bytes reproduces `v`
bit-for-bit. -/
theorem C1_int_roundtrip (v1 v2 v4 v8 : Nat) (m1 m2 m4 m8 : List Nat)
    (h1 : v1 < 2 ^ 8) (hl1 : m1.length = 1)
    (h2 : v2 < 2 ^ 16) (hl2 : m2.length = 2)
    (h4 : v4 < 2 ^ 32) (hl4 : m4.length = 4)
    (h8 : v8 < 2 ^ 64) (hl8 : m8.length = 8) :
    (∃ out, u8_serialize v1 m1 = Except.ok out ∧
      u8_deserialize out = some (Except.ok v1)) ∧
    (∃ out, put_int 2 v2 m2 = Except.ok out ∧ get_int 2 out = Except.ok v2) ∧
    (∃ out, put_int 4 v4 m4 = Except.ok out ∧ get_int 4 out = Except.ok v4) ∧
    (∃ out, put_int 8 v8 m8 = Except.ok out ∧ get_int 8 out = Except.ok v8) := by
  refine ⟨?_, put_get_int 2 v2 m2 (by norm_num at h2 ⊢; exact h2) hl2,
    put_get_int 4 v4 m4 (by norm_num at h4 ⊢; exact h4) hl4,
    put_get_int 8 v8 m8 (by norm_num at h8 ⊢; exact h8) hl8⟩
  obtain ⟨a, ha⟩ := List.length_eq_one.mp hl1
  subst ha
  have hv : v1 < 256 := by norm_num at h1; exact h1
  refine ⟨[v1], ?_, ?_⟩
  · simp [u8_serialize, writeFront, Nat.mod_eq_of_lt hv]
  · simp [u8_deserialize]

/-- Witness for C1 at the maximal representable values of each width. -/
theorem C1_int_roundtrip_witness :
    (255 < 2 ^ 8 ∧ ([0] : List Nat).length = 1 ∧
      65535 < 2 ^ 16 ∧ ([0, 0] : List Nat).length = 2 ∧
      4294967295 < 2 ^ 32 ∧ ([0, 0, 0, 0] : List Nat).length = 4 ∧
      18446744073709551615 < 2 ^ 64 ∧
      ([0, 0, 0, 0, 0, 0, 0, 0] : List Nat).length = 8) ∧
    ((∃ out, u8_serialize 255 [0] = Except.ok out ∧
        u8_deserialize out = some (Except.ok 255)) ∧
      (∃ out, put_int 2 65535 [0, 0] = Except.ok out ∧
        get_int 2 out = Except.ok 65535) ∧
      (∃ out, put_int 4 4294967295 [0, 0, 0, 0] = Except.ok out ∧
        get_int 4 out = Except.ok 4294967295) ∧
      (∃ out, put_int 8 18446744073709551615 [0, 0, 0, 0, 0, 0, 0, 0] = Except.ok out ∧
        get_int 8 out = Except.ok 18446744073709551615)) :=
  ⟨by norm_num,
    C1_int_roundtrip 255 65535 4294967295 18446744073709551615
      [0] [0, 0] [0, 0, 0, 0] [0, 0, 0, 0, 0, 0, 0, 0]
      (by norm_num) rfl (by norm_num) rfl (by norm_num) rfl (by norm_num) rfl⟩

/-- Claim C2: for values of types implementing the serialization contract
(u8, a byte slice, a string), `serialize` fails with the end-of-buffer error
when the buffer is shorter than the value's `size()`, fails with the
not-fully-used error when it is longer, and in both failure cases the error
carries the original buffer back to the caller. -/
theorem C2_serialize_length_mismatch (v : Nat) (s t ms ml ss sl ts tl : List Nat)
    (hms : ms.length < 1) (hml : ml.length > 1)
    (hss : ss.length < s.length) (hsl : sl.length > s.length)
    (hts : ts.length < t.length + 1) (htl : tl.length > t.length + 1) :
    u8_serialize v ms = Except.error (SerError.UnexpectedEOB ms) ∧
    u8_serialize v ml = Except.error (SerError.BufferNotFilled ml) ∧
    slice_serialize s ss = Except.error (SerError.UnexpectedEOB ss) ∧
    slice_serialize s sl = Except.error (SerError.BufferNotFilled sl) ∧
    str_serialize t ts = some (Except.error (SerError.UnexpectedEOB ts)) ∧
    str_serialize t tl = some (Except.error (SerError.BufferNotFilled tl)) := by
  refine ⟨?_, ?_, ?_, ?_, ?_, ?_⟩
  · simp [u8_serialize, hms]
  · unfold u8_serialize
    rw [if_neg (by omega), if_pos hml]
  · unfold slice_serialize
    rw [if_neg (by omega), if_pos hss]
  · simp [slice_serialize, hsl]
  · unfold str_serialize
    rw [if_neg (by omega), if_pos hts]
  · simp [str_serialize, htl]

/-- Witness for C2: a 0-byte and a 2-byte buffer against a u8, a 1-byte and
a 3-byte buffer against the 2-byte slice `[1, 2]`, and a 1-byte and a 3-byte
buffer against the 1-character string `[65]` (whose `size()` is 2). -/
theorem C2_serialize_length_mismatch_witness :
    (([] : List Nat).length < 1 ∧ ([9, 9] : List Nat).length > 1 ∧
      ([0] : List Nat).length < ([1, 2] : List Nat).length ∧
      ([0, 0, 0] : List Nat).length > ([1, 2] : List Nat).length ∧
      ([0] : List Nat).length < ([65] : List Nat).length + 1 ∧
      ([0, 0, 0] : List Nat).length > ([65] : List Nat).length + 1) ∧
    (u8_serialize 7 [] = Except.error (SerError.UnexpectedEOB []) ∧
      u8_serialize 7 [9, 9] = Except.error (SerError.BufferNotFilled [9, 9]) ∧
      slice_serialize [1, 2] [0] = Except.error (SerError.UnexpectedEOB [0]) ∧
      slice_serialize [1, 2] [0, 0, 0] = Except.error (SerError.BufferNotFilled [0, 0, 0]) ∧
      str_serialize [65] [0] = some (Except.error (SerError.UnexpectedEOB [0])) ∧
      str_serialize [65] [0, 0, 0] = some (Except.error (SerError.BufferNotFilled [0, 0, 0]))) :=
  ⟨by norm_num,
    C2_serialize_length_mismatch 7 [1, 2] [65] [] [9, 9] [0] [0, 0, 0] [0] [0, 0, 0]
      (by norm_num) (by norm_num) (by norm_num) (by norm_num) (by norm_num) (by norm_num)⟩

/-- Counterexample to claim C3 as stated: the claim requires
`U32BitFlag::new(0)` to fail with the range error (position 0 being outside
`[1, 32]`), but the constructor only rejects `bit_num > 32`, so `new(0)`
succeeds. -/
theorem C3_counterexample :
    U32BitFlag_new 0 = Except.ok 0 ∧
    ¬ ∃ e, U32BitFlag_new 0 = Except.error e := by
  refine ⟨rfl, ?_⟩
  rintro ⟨e, h⟩
  simp [U32BitFlag_new] at h

/-- Claim C3 amended: `U32BitFlag::new(n)` returns the range error if and
only if `n > 32`; in particular `new(33)` fails with the range error and
`new(n)` succeeds for every `n ≤ 32`, including the boundary cases `n = 32`
and (contrary to the original claim) `n = 0`. -/
theorem C3_flag_range (n : Nat) (_hdom : n < 2 ^ 32) :
    ((∃ e, U32BitFlag_new n = Except.error e) ↔ 32 < n) ∧
    (n ≤ 32 → U32BitFlag_new n = Except.ok n) := by
  unfold U32BitFlag_new
  by_cases hn : 32 < n
  · simp [hn]
  · simp [hn]

/-- Witness for C3 (amended) at the boundary position 32. -/
theorem C3_flag_range_witness :
    32 < 2 ^ 32 ∧
    (((∃ e, U32BitFlag_new 32 = Except.error e) ↔ 32 < 32) ∧
      (32 ≤ 32 → U32BitFlag_new 32 = Except.ok 32)) :=
  ⟨by norm_num, C3_flag_range 32 (by norm_num)⟩

/-- Shared evaluation of `num_to_set_mask` on the in-range positions. -/
theorem num_to_set_mask_eq (p : Nat) (hp1 : 1 ≤ p) (hp2 : p ≤ 32) :
    num_to_set_mask p = some (2 ^ (p - 1)) := by
  unfold num_to_set_mask
  rw [if_neg (by omega), if_neg (by omega), Nat.one_shiftLeft]

/-- Claim C4: for every position `p` in `[1, 32]` the set-mask computation
`1 << (p - 1)` used by `is_set` and by flag-to-mask conversion is
well-defined (the subtraction does not underflow and the shift amount stays
below 32); for `p = 0`, which the constructor does not reject, the
subtraction underflows, so `U32Bitmask::is_set(0)` and converting a flag
built at position 0 into a mask are not total operations (modelled as
`none`). -/
theorem C4_set_mask_partiality (p : Nat) (hp1 : 1 ≤ p) (hp2 : p ≤ 32) :
    (num_to_set_mask p = some (2 ^ (p - 1)) ∧ p - 1 < 32) ∧
    num_to_set_mask 0 = none ∧
    (∀ m, U32Bitmask_is_set m 0 = none) ∧
    U32BitFlag_new 0 = Except.ok 0 ∧
    into_bitmask 0 = none := by
  refine ⟨⟨num_to_set_mask_eq p hp1 hp2, by omega⟩, rfl, fun m => rfl, rfl, rfl⟩

/-- Witness for C4 at the boundary position 32. -/
theorem C4_set_mask_partiality_witness :
    (1 ≤ 32 ∧ 32 ≤ 32) ∧
    ((num_to_set_mask 32 = some (2 ^ (32 - 1)) ∧ 32 - 1 < 32) ∧
      num_to_set_mask 0 = none ∧
      (∀ m, U32Bitmask_is_set m 0 = none) ∧
      U32BitFlag_new 0 = Except.ok 0 ∧
      into_bitmask 0 = none) :=
  ⟨by norm_num, C4_set_mask_partiality 32 (by norm_num) (by norm_num)⟩

/-- Counterexample to claim C5 as stated: the claim requires the default
`pad` to write its `asize() - size()` zero bytes into the remaining buffer
capacity, leaving previously written bytes unchanged.  For a u8 value
(`size() = 1`, `asize() = 4`, three padding bytes) the code instead writes
through `Write for &mut [u8]`, which starts at the front of the buffer: on
the exactly-sized 1-byte buffer left by `serialize` it fails with an I/O
error (after zeroing the written byte), and on a 4-byte buffer it zeroes the
three previously written leading bytes. -/
theorem C5_counterexample :
    pad 1 [5] = Except.error (SerError.IOError [0]) ∧
    pad 1 [5, 9, 9, 9] = Except.ok [0, 0, 0, 9] := by
  constructor <;> rfl

/-- Claim C5 amended: the default `pad` writes its `alignto size - size`
zero bytes at the front of the buffer's initialized bytes, overwriting
whatever is there; it fails with an I/O error carrying the (now zeroed)
buffer when the buffer is shorter than the padding length; and when `size()`
already equals `asize()` it writes zero bytes, succeeds, and leaves the
buffer unchanged. -/
theorem C5_pad_front (sa sb : Nat) (ma mb mc : List Nat)
    (ha : alignto sa - sa ≤ ma.length)
    (hb : mb.length < alignto sa - sa)
    (hc : alignto sb = sb) :
    pad sa ma =
      Except.ok (List.replicate (alignto sa - sa) 0 ++ ma.drop (alignto sa - sa)) ∧
    pad sa mb = Except.error (SerError.IOError (List.replicate mb.length 0)) ∧
    pad sb mc = Except.ok mc := by
  have hle : ∀ s : Nat, alignto s - s ≤ 4 := by
    intro s; unfold alignto; omega
  have htake : ∀ s : Nat,
      (List.replicate 4 (0 : Nat)).take (alignto s - s) =
        List.replicate (alignto s - s) 0 := by
    intro s
    rw [List.take_replicate, Nat.min_eq_left (hle s)]
  refine ⟨?_, ?_, ?_⟩
  · simp only [pad, writeAllFront, htake sa, List.length_replicate]
    rw [if_pos ha]
  · simp only [pad, writeAllFront, htake sa, List.length_replicate]
    rw [if_neg (by omega)]
    rw [List.take_replicate, Nat.min_eq_left (le_of_lt hb)]
  · have h0 : alignto sb - sb = 0 := by omega
    simp only [pad, writeAllFront, h0]
    simp

/-- Witness for C5 (amended): a u8-sized value (`size() = 1`) against a
4-byte and a 1-byte buffer, and an already-aligned value (`size() = 4`). -/
theorem C5_pad_front_witness :
    (alignto 1 - 1 ≤ ([5, 9, 9, 9] : List Nat).length ∧
      ([5] : List Nat).length < alignto 1 - 1 ∧ alignto 4 = 4) ∧
    (pad 1 [5, 9, 9, 9] =
        Except.ok (List.replicate (alignto 1 - 1) 0 ++
          ([5, 9, 9, 9] : List Nat).drop (alignto 1 - 1)) ∧
      pad 1 [5] =
        Except.error (SerError.IOError (List.replicate ([5] : List Nat).length 0)) ∧
      pad 4 [7, 7, 7, 7] = Except.ok [7, 7, 7, 7]) :=
  ⟨⟨by decide, by decide, by decide⟩,
    C5_pad_front 1 4 [5, 9, 9, 9] [5] [7, 7, 7, 7] (by decide) (by decide) (by decide)⟩

/-- Counterexample to claim C6 as stated: the claim requires the owned
`deserialize` on `&[u8]` to return a typed unsupported-operation error, but
its body is `unimplemented!()`, an unconditional panic (modelled as `none`),
so on the empty buffer no typed error is returned. -/
theorem C6_counterexample :
    slice_deserialize [] = none ∧
    ¬ ∃ e, slice_deserialize [] = some (Except.error e) := by
  refine ⟨rfl, ?_⟩
  rintro ⟨e, h⟩
  simp [slice_deserialize] at h

/-- Claim C6 amended: for every input buffer, the owned `deserialize` on the
borrowed text type (`&str`) fails by returning the typed
unsupported-operation error (`DeError::new("Use deserialize_from_slice")`),
but the owned `deserialize` on the borrowed byte-span type (`&[u8]`) panics
via `unimplemented!()` instead of returning a typed error. -/
theorem C6_owned_decode (mem : List Nat) :
    str_deserialize mem = Except.error (DeError.Msg "Use deserialize_from_slice") ∧
    slice_deserialize mem = none :=
  ⟨rfl, rfl⟩

/-- Claim C7: the borrowing text decode fails with the missing-terminator
error (`NullError`) when the buffer is empty or its final byte is not zero,
fails with a content-encoding error (the message-carrying variant) when the
buffer ends in zero but the bytes before the final byte are not valid UTF-8,
and succeeds otherwise (returning the bytes before the terminator). -/
theorem C7_str_decode_errors (m1 m2 m3 : List Nat)
    (h1 : m1.getLast? ≠ some 0)
    (h2z : m2.getLast? = some 0)
    (h2v : isValidUtf8 (m2.take (m2.length - 1)) = false)
    (h3z : m3.getLast? = some 0)
    (h3v : isValidUtf8 (m3.take (m3.length - 1)) = true) :
    str_deserialize_from_slice [] = Except.error DeError.NullError ∧
    str_deserialize_from_slice m1 = Except.error DeError.NullError ∧
    (∃ s, str_deserialize_from_slice m2 = Except.error (DeError.Msg s)) ∧
    str_deserialize_from_slice m3 = Except.ok (m3.take (m3.length - 1)) := by
  refine ⟨rfl, ?_, ?_, ?_⟩
  · unfold str_deserialize_from_slice
    match hl : m1.getLast? with
    | none => rfl
    | some 0 => exact absurd hl h1
    | some (b + 1) => rfl
  · refine ⟨"invalid utf-8", ?_⟩
    unfold str_deserialize_from_slice
    rw [h2z]
    simp [h2v]
  · unfold str_deserialize_from_slice
    rw [h3z]
    simp [h3v]

/-- Witness for C7: `[65]` lacks the terminator, `[255, 0]` is terminated
but not valid UTF-8, `[65, 0]` decodes to `[65]`. -/
theorem C7_str_decode_errors_witness :
    (([65] : List Nat).getLast? ≠ some 0 ∧
      ([255, 0] : List Nat).getLast? = some 0 ∧
      isValidUtf8 (([255, 0] : List Nat).take (([255, 0] : List Nat).length - 1)) = false ∧
      ([65, 0] : List Nat).getLast? = some 0 ∧
      isValidUtf8 (([65, 0] : List Nat).take (([65, 0] : List Nat).length - 1)) = true) ∧
    (str_deserialize_from_slice [] = Except.error DeError.NullError ∧
      str_deserialize_from_slice [65] = Except.error DeError.NullError ∧
      (∃ s, str_deserialize_from_slice [255, 0] = Except.error (DeError.Msg s)) ∧
      str_deserialize_from_slice [65, 0] =
        Except.ok (([65, 0] : List Nat).take (([65, 0] : List Nat).length - 1))) :=
  ⟨⟨by decide, by decide, by decide, by decide, by decide⟩,
    C7_str_decode_errors [65] [255, 0] [65, 0]
      (by decide) (by decide) (by decide) (by decide) (by decide)⟩

/-- Two powers of two meet in `&&&` exactly when their exponents agree. -/
theorem pow_and_pow (a b : Nat) : 2 ^ a &&& 2 ^ b = if a = b then 2 ^ a else 0 := by
  rw [Nat.and_two_pow, Nat.testBit_two_pow]
  by_cases h : a = b
  · simp [h]
  · simp [h]

/-- A 32-bit value meets its own 32-bit complement in `&&&` at no bit. -/
theorem and_not_self_u32 (x : Nat) (hx : x < 2 ^ 32) : x &&& u32_not x = 0 := by
  apply Nat.eq_of_testBit_eq
  intro i
  simp only [u32_not, Nat.testBit_and, Nat.testBit_xor,
    Nat.testBit_two_pow_sub_one, Nat.zero_testBit]
  by_cases hi : i < 32
  · cases h : x.testBit i <;> simp [hi, h]
  · have hxi : x.testBit i = false :=
      Nat.testBit_lt_two_pow
        (lt_of_lt_of_le hx (Nat.pow_le_pow_right (by norm_num) (by omega)))
    simp [hxi]

/-- Evaluation of `is_set` on the in-range positions. -/
theorem is_set_eq (m j : Nat) (hj1 : 1 ≤ j) (hj2 : j ≤ 32) :
    U32Bitmask_is_set m j = some (2 ^ (j - 1) &&& m == 2 ^ (j - 1)) := by
  unfold U32Bitmask_is_set
  rw [if_neg (by omega), num_to_set_mask_eq j hj1 hj2]
  rfl

/-- On the zero mask every in-range position reads as unset. -/
theorem is_set_zero_mask (j : Nat) (hj1 : 1 ≤ j) (hj2 : j ≤ 32) :
    U32Bitmask_is_set 0 j = some false := by
  rw [is_set_eq 0 j hj1 hj2, Nat.and_zero]
  have h2 : (0 : Nat) ≠ 2 ^ (j - 1) := (Nat.two_pow_pos (j - 1)).ne
  simp [h2]

/-- Claim C8: on the empty mask `is_set` is false at every position in
`[1, 32]`; after unioning a flag at position `k` into it (the `+=` path,
which the `|` path `bitmask_bitor` agrees with), `is_set k` is true and
`is_set j` is false for every other in-range `j`; subtracting the same flag
(the `-=`/`-` path) restores a mask on which `is_set` is false at every
in-range position. -/
theorem C8_mask_algebra (k : Nat) (hk1 : 1 ≤ k) (hk2 : k ≤ 32) :
    (∀ j, 1 ≤ j → j ≤ 32 → U32Bitmask_is_set U32Bitmask_empty j = some false) ∧
    (∃ m, bitmask_add_flag U32Bitmask_empty k = some m ∧
      bitmask_bitor U32Bitmask_empty (2 ^ (k - 1)) = m ∧
      U32Bitmask_is_set m k = some true ∧
      (∀ j, 1 ≤ j → j ≤ 32 → j ≠ k → U32Bitmask_is_set m j = some false) ∧
      (∃ m2, bitmask_sub_flag m k = some m2 ∧
        ∀ j, 1 ≤ j → j ≤ 32 → U32Bitmask_is_set m2 j = some false)) := by
  have hmask := num_to_set_mask_eq k hk1 hk2
  refine ⟨fun j hj1 hj2 => is_set_zero_mask j hj1 hj2,
    2 ^ (k - 1), ?_, ?_, ?_, ?_, ?_⟩
  · simp [bitmask_add_flag, into_bitmask, hmask, U32Bitmask_empty]
  · simp [bitmask_bitor, U32Bitmask_empty]
  · rw [is_set_eq _ k hk1 hk2, Nat.and_self]
    simp
  · intro j hj1 hj2 hjk
    rw [is_set_eq _ j hj1 hj2, pow_and_pow, if_neg (by omega)]
    have h2 : (0 : Nat) ≠ 2 ^ (j - 1) := (Nat.two_pow_pos (j - 1)).ne
    simp [h2]
  · refine ⟨2 ^ (k - 1) &&& u32_not (2 ^ (k - 1)), ?_, ?_⟩
    · simp [bitmask_sub_flag, into_bitmask, hmask]
    · have hz : 2 ^ (k - 1) &&& u32_not (2 ^ (k - 1)) = 0 :=
        and_not_self_u32 _ (Nat.pow_lt_pow_right (by norm_num) (by omega))
      rw [hz]
      exact fun j hj1 hj2 => is_set_zero_mask j hj1 hj2

/-- Witness for C8 at position 5. -/
theorem C8_mask_algebra_witness :
    (1 ≤ 5 ∧ 5 ≤ 32) ∧
    ((∀ j, 1 ≤ j → j ≤ 32 → U32Bitmask_is_set U32Bitmask_empty j = some false) ∧
      (∃ m, bitmask_add_flag U32Bitmask_empty 5 = some m ∧
        bitmask_bitor U32Bitmask_empty (2 ^ (5 - 1)) = m ∧
        U32Bitmask_is_set m 5 = some true ∧
        (∀ j, 1 ≤ j → j ≤ 32 → j ≠ 5 → U32Bitmask_is_set m j = some false) ∧
        (∃ m2, bitmask_sub_flag m 5 = some m2 ∧
          ∀ j, 1 ≤ j → j ≤ 32 → U32Bitmask_is_set m2 j = some false))) :=
  ⟨by norm_num, C8_mask_algebra 5 (by norm_num) (by norm_num)⟩

/-- Claim C9: serializing the 5-character string "AAAAA" (UTF-8 bytes
`[65, 65, 65, 65, 65]`, `size() = 6`) into any buffer of exactly 6 bytes
succeeds and yields the five ASCII bytes 65 followed by a zero byte, and the
borrowing decode of that 6-byte sequence reproduces the bytes of "AAAAA". -/
theorem C9_text_roundtrip (mem : List Nat) (h : mem.length = 6) :
    str_serialize [65, 65, 65, 65, 65] mem =
      some (Except.ok [65, 65, 65, 65, 65, 0]) ∧
    str_deserialize_from_slice [65, 65, 65, 65, 65, 0] =
      Except.ok [65, 65, 65, 65, 65] := by
  constructor
  · rcases mem with _ | ⟨a1, _ | ⟨a2, _ | ⟨a3, _ | ⟨a4, _ | ⟨a5, _ | ⟨a6, _ | ⟨a7, rest⟩⟩⟩⟩⟩⟩⟩
    all_goals try rfl
    all_goals simp at h
  · rfl

/-- Witness for C9 on the all-zero 6-byte buffer. -/
theorem C9_text_roundtrip_witness :
    ([0, 0, 0, 0, 0, 0] : List Nat).length = 6 ∧
    (str_serialize [65, 65, 65, 65, 65] [0, 0, 0, 0, 0, 0] =
        some (Except.ok [65, 65, 65, 65, 65, 0]) ∧
      str_deserialize_from_slice [65, 65, 65, 65, 65, 0] =
        Except.ok [65, 65, 65, 65, 65]) :=
  ⟨rfl, C9_text_roundtrip [0, 0, 0, 0, 0, 0] rfl⟩

/-- Claim C10: for every buffer whose final byte is zero and whose remaining
bytes are valid UTF-8, the borrowing text decode succeeds and returns
exactly the bytes before the final byte — only the single final byte is the
terminator, so interior zero bytes are accepted and preserved in the decoded
string rather than truncating it. -/
theorem C10_interior_zeros (mem : List Nat) (h0 : mem.getLast? = some 0)
    (hv : isValidUtf8 (mem.take (mem.length - 1)) = true) :
    str_deserialize_from_slice mem = Except.ok (mem.take (mem.length - 1)) := by
  unfold str_deserialize_from_slice
  rw [h0]
  simp [hv]

/-- Witness for C10 on `[65, 0, 66, 0]`, whose decoded prefix `[65, 0, 66]`
contains an interior zero byte that is preserved. -/
theorem C10_interior_zeros_witness :
    ([65, 0, 66, 0] : List Nat).getLast? = some 0 ∧
    isValidUtf8 (([65, 0, 66, 0] : List Nat).take
      (([65, 0, 66, 0] : List Nat).length - 1)) = true ∧
    str_deserialize_from_slice [65, 0, 66, 0] =
      Except.ok (([65, 0, 66, 0] : List Nat).take
        (([65, 0, 66, 0] : List Nat).length - 1)) :=
  ⟨by decide, by decide, C10_interior_zeros [65, 0, 66, 0] (by decide) (by decide)⟩
